import Mathlib

/-!
Shallow embedding of the orchestration layer of the kaguya backend
(`backend.py`) together with proofs about its claimed properties.

External collaborators (the Spotify catalog, the OAuth-authenticated
client, the face detector and the mood classifier) are modelled as
explicit function parameters; the module-level mutable dictionary
`created_playlists` is modelled as an explicit association-list state
threaded through the functions that touch it.  Python integers are
modelled as `Int`, track/playlist payloads as structures whose fields
mirror the dictionaries built in the source.
-/

namespace Kaguya

/-- Raw track item as returned by the external catalog search
(`results['tracks']['items']`); fields mirror the dictionary accesses
performed by `search_spotify_by_mood`. -/
structure RawTrack where
  id : String
  name : String
  artists : List String
  albumName : String
  albumImages : List String
  previewUrl : Option String
  spotifyUrl : String
  durationMs : Nat
  popularity : Nat
deriving DecidableEq, Repr

/-- Projected track dictionary (`track_info` in `search_spotify_by_mood`). -/
structure TrackInfo where
  id : String
  name : String
  artist : String
  album : String
  image_url : Option String
  preview_url : Option String
  spotify_url : String
  duration_ms : Nat
  popularity : Nat
deriving DecidableEq, Repr

/-- The fixed mood enumeration `MOOD_LABELS` (a dict keyed 0..6 in the
source; the list index plays the role of the key). -/
def MOOD_LABELS : List String :=
  ["Angry", "Disgust", "Fear", "Happy", "Sad", "Surprise", "Neutral"]

/-- Association-list lookup, modelling Python dict membership/access. -/
def dictLookup : List (String × String) → String → Option String
  | [], _ => none
  | (k, v) :: rest, key => if k = key then some v else dictLookup rest key

/-- The module-level `created_playlists` dictionary: mood label to
playlist URL. -/
abbrev Cache := List (String × String)

/-- The static mood-to-query table inside `get_mood_search_query`. -/
def mood_queries : List (String × String) :=
  [("Happy", "happy upbeat pop dance bollywood energetic"),
   ("Sad", "sad melancholic acoustic emotional hindi heartbreak"),
   ("Angry", "angry rock metal aggressive rap hindi"),
   ("Fear", "ambient dark atmospheric calm soothing"),
   ("Surprise", "electronic experimental pop energetic dance"),
   ("Disgust", "rock alternative metal angry"),
   ("Neutral", "pop indie chill relaxed")]

/-- Embedding of `get_mood_search_query`: static lookup, default
"pop music" for unmapped values. -/
def get_mood_search_query (mood : String) : String :=
  (dictLookup mood_queries mood).getD "pop music"

/-- Projection of a raw catalog item into the `track_info` dictionary:
artist is the first artist name (or "Unknown Artist"), album art is the
second image variant when more than one is present, else the first. -/
def projectTrack (t : RawTrack) : TrackInfo :=
  { id := t.id
    name := t.name
    artist := t.artists.headD "Unknown Artist"
    album := t.albumName
    image_url :=
      match t.albumImages with
      | [] => none
      | [u] => some u
      | _ :: u :: _ => some u
    preview_url := t.previewUrl
    spotify_url := t.spotifyUrl
    duration_ms := t.durationMs
    popularity := t.popularity }

/-- The dedup-and-truncate loop of `search_spotify_by_mood`: walks the
catalog items, skips `None` entries and already-seen track ids, projects
the survivors, and breaks once `len(tracks) >= limit` (checked after the
append; `n` is the number of tracks accumulated so far). -/
def searchLoop (limit : Int) : List (Option RawTrack) → List String → Nat → List TrackInfo
  | [], _, _ => []
  | none :: rest, seen, n => searchLoop limit rest seen n
  | some t :: rest, seen, n =>
    if t.id ∈ seen then searchLoop limit rest seen n
    else if ((n + 1 : Nat) : Int) ≥ limit then [projectTrack t]
    else projectTrack t :: searchLoop limit rest (t.id :: seen) (n + 1)

/-- The external catalog search collaborator: a query string and a
request limit produce a list of items (possibly containing nulls). -/
abbrev Catalog := String → Int → List (Option RawTrack)

/-- Embedding of `search_spotify_by_mood`.  The `spotify_client` global
is modelled by the `client : Option Catalog` parameter; when it is
`none` the source raises and the handler returns `[]`.  The catalog is
queried with `min(limit*2, 50)` and the result list is deduplicated by
track id and truncated to `limit`. -/
def search_spotify_by_mood (client : Option Catalog) (mood : String) (limit : Int) :
    List TrackInfo :=
  match client with
  | none => []
  | some catalog =>
    let search_query := get_mood_search_query mood
    let search_limit := min (limit * 2) 50
    searchLoop limit (catalog search_query search_limit) [] 0

/-- Spec-side comparator for claim C1, following the spec's words:
deduplicate by track id, first occurrence wins, insertion order
preserved (`seen` is the set of ids already kept). -/
def specFirstSeenDedup : List RawTrack → List String → List RawTrack
  | [], _ => []
  | t :: ts, seen =>
    if t.id ∈ seen then specFirstSeenDedup ts seen
    else t :: specFirstSeenDedup ts (t.id :: seen)

/-- Sample raw catalog item used for concrete witnesses. -/
def rawT0 : RawTrack :=
  { id := "t0", name := "Song", artists := ["Artist"], albumName := "Album",
    albumImages := [], previewUrl := none, spotifyUrl := "https://open.spotify.com/track/t0",
    durationMs := 1000, popularity := 50 }

/-- Second sample raw catalog item with a distinct id. -/
def rawT1 : RawTrack :=
  { id := "t1", name := "Tune", artists := [], albumName := "B",
    albumImages := ["small", "medium"], previewUrl := none,
    spotifyUrl := "https://open.spotify.com/track/t1", durationMs := 2000, popularity := 10 }

/-- Lowercasing as performed by Python's `str.lower` on the strings this
service handles (ASCII letters), character by character. -/
def pyLower (s : String) : String :=
  String.mk (s.toList.map Char.toLower)

/-- Python's `str.startswith`, via character lists. -/
def pyStartsWith (s pre : String) : Bool :=
  pre.toList.isPrefixOf s.toList

/-- Uppercase hexadecimal digit for `n < 16`. -/
def hexDigit (n : Nat) : Char :=
  if n < 10 then Char.ofNat (48 + n) else Char.ofNat (55 + n)

/-- Bytes left unescaped by `urllib.parse.quote` with its default
`safe='/'`: ASCII letters, digits, `_ . - ~` and `/`. -/
def quoteSafeByte (n : Nat) : Bool :=
  (65 ≤ n && n ≤ 90) || (97 ≤ n && n ≤ 122) || (48 ≤ n && n ≤ 57) ||
    n = 95 || n = 46 || n = 45 || n = 126 || n = 47

/-- UTF-8 encoding of a single code point, as a list of byte values. -/
def utf8Bytes (c : Char) : List Nat :=
  let n := c.toNat
  if n < 128 then [n]
  else if n < 2048 then [192 + n / 64, 128 + n % 64]
  else if n < 65536 then [224 + n / 4096, 128 + (n / 64) % 64, 128 + n % 64]
  else [240 + n / 262144, 128 + (n / 4096) % 64, 128 + (n / 64) % 64, 128 + n % 64]

/-- Percent-encoding of one byte as done by `urllib.parse.quote`. -/
def quoteByte (n : Nat) : String :=
  if quoteSafeByte n then String.singleton (Char.ofNat n)
  else "%" ++ String.singleton (hexDigit (n / 16)) ++ String.singleton (hexDigit (n % 16))

/-- Embedding of `urllib.parse.quote` with the default safe set: encode
to UTF-8 and percent-escape every byte outside the safe set. -/
def urllib_parse_quote (s : String) : String :=
  String.join (((s.toList.map utf8Bytes).flatten).map quoteByte)

/-- Python truthiness of the optional `mood` argument (`if mood:`):
false for `None` and for the empty string. -/
def moodTruthy : Option String → Bool
  | none => false
  | some m => !(m = "")

/-- The `track_names` list built (twice, identically) inside
`create_spotify_playlist_url`: "name artist" for each of the first 5
tracks whose name and artist are both truthy. -/
def five_track_names (tracks : List TrackInfo) : List String :=
  (tracks.take 5).filterMap fun t =>
    if t.name = "" ∨ t.artist = "" then none else some (t.name ++ " " ++ t.artist)

/-- The `track_ids` list of `create_spotify_playlist_url`: ids of all
tracks whose id is truthy. -/
def truthy_track_ids (tracks : List TrackInfo) : List String :=
  tracks.filterMap fun t => if t.id = "" then none else some t.id

/-- Embedding of `create_spotify_playlist_url` (the fallback search-URL
generator for non-authenticated users).  An empty track list returns
`None`.  With some truthy track id and some usable "name artist" string
among the first 5 tracks, the query is those strings joined by spaces,
prefixed by `"{mood} "` when mood is truthy, percent-encoded.  With no
truthy id but a usable name string the second block runs, whose mood
prefix is `"{mood} mood "`.  With no usable name string at all the
mood-only URL `"https://open.spotify.com/search/{mood.lower()}%20music"`
is returned (`"mood%20music"` when mood is not truthy). -/
def create_spotify_playlist_url (tracks : List TrackInfo) (mood : Option String) :
    Option String :=
  if tracks = [] then none
  else
    let track_ids := truthy_track_ids tracks
    let track_names := five_track_names tracks
    if track_ids ≠ [] ∧ track_names ≠ [] then
      let q0 := String.intercalate " " track_names
      let q := if moodTruthy mood then mood.getD "" ++ " " ++ q0 else q0
      some ("https://open.spotify.com/search/" ++ urllib_parse_quote q)
    else if track_names ≠ [] then
      let q0 := String.intercalate " " track_names
      let q := if moodTruthy mood then mood.getD "" ++ " mood " ++ q0 else q0
      some ("https://open.spotify.com/search/" ++ urllib_parse_quote q)
    else
      let mood_search := if moodTruthy mood then pyLower (mood.getD "") else "mood"
      some ("https://open.spotify.com/search/" ++ mood_search ++ "%20music")

/-- Observable effects of one `create_actual_spotify_playlist` call, in
program order: the `mood in created_playlists` membership test, the
`sp.current_user()` call, the `sp.user_playlist_create(...)` call, the
`sp.playlist_add_items(...)` call, and the dictionary store
`created_playlists[mood] = playlist_url`. -/
inductive ApiEvent where
  | cacheLookup (mood : String)
  | currentUser
  | createPlaylist (name : String)
  | addItems (count : Nat)
  | cacheInsert (mood url : String)
deriving DecidableEq, Repr

/-- The authenticated Spotify client collaborator
(`get_authenticated_spotify_client` result): a user id and the external
service's playlist-URL assignment for a playlist created with a given
name. -/
structure SpotifyUser where
  userId : String
  playlistUrl : String → String

/-- The URI dedup loop of `create_actual_spotify_playlist`: over the
first 50 tracks, keep `spotify:track:{id}` for tracks with a truthy id,
skipping URIs already seen (dedup by URI, insertion order). -/
def trackUrisLoop : List TrackInfo → List String → List String
  | [], _ => []
  | t :: ts, seen =>
    if t.id = "" then trackUrisLoop ts seen
    else
      let uri := "spotify:track:" ++ t.id
      if uri ∈ seen then trackUrisLoop ts seen
      else uri :: trackUrisLoop ts (uri :: seen)

/-- Embedding of `create_actual_spotify_playlist`.  Returns the playlist
URL (or `None`), the updated `created_playlists` cache, and the list of
observable effects in program order.  An empty track list returns
immediately; a cached mood returns the stored URL after only the
membership test; without an authenticated client nothing is created;
otherwise a playlist named `"kaguya {mood.lower()} mood"` is created,
deduplicated URIs are added, and the URL is stored in the cache. -/
def create_actual_spotify_playlist (sp : Option SpotifyUser) (tracks : List TrackInfo)
    (mood : String) (cache : Cache) : Option String × Cache × List ApiEvent :=
  if tracks = [] then (none, cache, [])
  else
    match dictLookup cache mood with
    | some url => (some url, cache, [ApiEvent.cacheLookup mood])
    | none =>
      match sp with
      | none => (none, cache, [ApiEvent.cacheLookup mood])
      | some user =>
        let playlist_name := "kaguya " ++ pyLower mood ++ " mood"
        let track_uris := trackUrisLoop (tracks.take 50) []
        let playlist_url := user.playlistUrl playlist_name
        (some playlist_url, cache ++ [(mood, playlist_url)],
          [ApiEvent.cacheLookup mood, ApiEvent.currentUser,
           ApiEvent.createPlaylist playlist_name]
            ++ (if track_uris = [] then [] else [ApiEvent.addItems track_uris.length])
            ++ [ApiEvent.cacheInsert mood playlist_url])

/-- Number of external playlist-creation calls recorded in an effect
trace. -/
def creationCalls (events : List ApiEvent) : Nat :=
  (events.filter fun e =>
    match e with
    | ApiEvent.createPlaylist _ => true
    | _ => false).length

/-- Response of the `/playlist/{mood}` endpoint: HTTP status, body
fields, and the cache state after the request. -/
structure PlaylistEndpointResult where
  status : Nat
  tracks : List TrackInfo
  playlist_url : Option String
  cache : Cache
deriving DecidableEq, Repr

/-- Embedding of the `get_playlist_by_mood` handler: 503 when the
catalog client is not initialized (checked first), 400 when the mood is
not in `MOOD_LABELS`, 404 when the search yields no tracks, else 200
with the tracks and whatever `create_actual_spotify_playlist`
returned. -/
def get_playlist_by_mood (client : Option Catalog) (sp : Option SpotifyUser)
    (mood : String) (limit : Int) (cache : Cache) : PlaylistEndpointResult :=
  match client with
  | none => { status := 503, tracks := [], playlist_url := none, cache := cache }
  | some _ =>
    if mood ∉ MOOD_LABELS then
      { status := 400, tracks := [], playlist_url := none, cache := cache }
    else
      let tracks := search_spotify_by_mood client mood limit
      if tracks = [] then
        { status := 404, tracks := [], playlist_url := none, cache := cache }
      else
        let r := create_actual_spotify_playlist sp tracks mood cache
        { status := 200, tracks := tracks, playlist_url := r.1, cache := r.2.1 }

/-- User playlist record as listed by `sp.current_user_playlists`
(the fields `cleanup_kaguya_playlists` reads). -/
structure SpotifyPlaylist where
  name : String
  id : String
  url : String
deriving DecidableEq, Repr

/-- The brand filter of `cleanup_kaguya_playlists`:
`playlist['name'].lower().startswith('kaguya')`. -/
def isKaguyaPlaylist (p : SpotifyPlaylist) : Bool :=
  pyStartsWith (pyLower p.name) "kaguya"

/-- Response of the `/cleanup` endpoint. -/
structure CleanupResult where
  status : Nat
  deleted_count : Nat
  deleted : List SpotifyPlaylist
  cache : Cache
deriving DecidableEq, Repr

/-- Embedding of `cleanup_kaguya_playlists`.  The paginated
`current_user_playlists` loop is modelled by the aggregated `playlists`
parameter, and an `unfollow` exception for a given playlist id by the
`deleteFails` predicate.  With no authenticated client: 503.  With no
brand-prefixed playlist the handler returns early and the cache is left
untouched.  Otherwise each matching playlist is unfollowed, failures
being logged and skipped, and the cache is cleared. -/
def cleanup_kaguya_playlists (sp : Option SpotifyUser) (playlists : List SpotifyPlaylist)
    (deleteFails : String → Bool) (cache : Cache) : CleanupResult :=
  match sp with
  | none => { status := 503, deleted_count := 0, deleted := [], cache := cache }
  | some _ =>
    let kaguya_playlists := playlists.filter isKaguyaPlaylist
    if kaguya_playlists = [] then
      { status := 200, deleted_count := 0, deleted := [], cache := cache }
    else
      let deleted := kaguya_playlists.filter fun p => !(deleteFails p.id)
      { status := 200, deleted_count := deleted.length, deleted := deleted, cache := [] }

/-- Axis-aligned face region `(x, y, w, h)` as returned by
`face_cascade.detectMultiScale`. -/
abbrev Face := Nat × Nat × Nat × Nat

/-- Area key of the face-selection rule: `face[2] * face[3]`. -/
def faceArea (f : Face) : Nat := f.2.2.1 * f.2.2.2

/-- Python's `max(faces, key=lambda face: face[2] * face[3])`: fold over
the remaining regions, replacing the current best only on a strictly
larger area (so ties keep the earliest region). -/
def largestFace : Face → List Face → Face
  | best, [] => best
  | best, g :: rest => largestFace (if faceArea best < faceArea g then g else best) rest

/-- The classification tail of `detect_mood_from_image`: `np.argmax` /
`np.max` over the prediction vector (first index of the maximum), label
looked up in `MOOD_LABELS` with default "Unknown"; an empty vector makes
`np.argmax` raise, which the handler turns into `(None, 0.0)`. -/
def listArgmax : ℚ → Nat → Nat → List ℚ → Nat × ℚ
  | best, bestIdx, _, [] => (bestIdx, best)
  | best, bestIdx, i, p :: ps =>
    if best < p then listArgmax p i (i + 1) ps else listArgmax best bestIdx (i + 1) ps

/-- Label and confidence from a prediction vector (see `listArgmax`). -/
def classifyFace (preds : List ℚ) : Option String × ℚ :=
  match preds with
  | [] => (none, 0)
  | p :: ps =>
    let r := listArgmax p 0 1 ps
    (some (MOOD_LABELS.getD r.1 "Unknown"), r.2)

/-- Embedding of `detect_mood_from_image`.  The cascade detector's
output is the `faces` parameter and the model's prediction vector for a
cropped region is the `predict` parameter.  An unloaded model raises,
caught as `(None, 0.0)`; zero regions return `(None, 0.0)`; otherwise
the largest region (ties to the earliest) is classified. -/
def detect_mood_from_image (modelLoaded : Bool) (faces : List Face)
    (predict : Face → List ℚ) : Option String × ℚ :=
  if modelLoaded = false then (none, 0)
  else
    match faces with
    | [] => (none, 0)
    | f :: fs => classifyFace (predict (largestFace f fs))

/-- One inbound frame of the `/ws/video-mood` endpoint: the fields the
handler reads from the received JSON object (`image` may be absent). -/
structure WsMessage where
  image : Option String
  timestamp : Option Nat
  include_playlist : Bool
deriving DecidableEq, Repr

/-- One reply sent on the websocket: either an inline `{error}` object
or the mood/confidence/timestamp payload with optional
recommendations. -/
inductive WsReply where
  | errorReply (msg : String)
  | result (mood : Option String) (confidence : ℚ) (timestamp : Option Nat)
      (recommendations : Option (List TrackInfo))
deriving DecidableEq, Repr

/-- Environment of the websocket handler: image decoding (`None` models
a `base64_to_image` failure), the cascade detector, the model, and the
catalog client.  Pixel buffers are abstract handles. -/
structure WsEnv where
  decode : String → Option Nat
  detectFaces : Nat → List Face
  predict : Nat → Face → List ℚ
  modelLoaded : Bool
  client : Option Catalog

/-- Processing of a single websocket frame, mirroring the loop body of
`websocket_video_mood`: a frame without an `image` field gets the inline
error `"No image data provided"`; a frame whose processing raises gets
`"Failed to process frame"`; otherwise mood and confidence are sent
back, with the top 5 of 10 searched tracks when `include_playlist` is
set and a mood was detected. -/
def handleFrame (env : WsEnv) (m : WsMessage) : WsReply :=
  match m.image with
  | none => WsReply.errorReply "No image data provided"
  | some s =>
    match env.decode s with
    | none => WsReply.errorReply "Failed to process frame"
    | some img =>
      let mc := detect_mood_from_image env.modelLoaded (env.detectFaces img) (env.predict img)
      let recs :=
        if mc.1.isSome && m.include_playlist then
          some ((search_spotify_by_mood env.client (mc.1.getD "") 10).take 5)
        else none
      WsReply.result mc.1 mc.2 m.timestamp recs

/-- Embedding of the `websocket_video_mood` receive loop over the frames
received before the client disconnects: each frame is processed to
completion and answered with exactly one reply; no frame terminates the
loop. -/
def websocket_video_mood (env : WsEnv) : List WsMessage → List WsReply
  | [] => []
  | m :: rest => handleFrame env m :: websocket_video_mood env rest

/-- The operations of the service that could touch the
`created_playlists` dictionary, with their inputs (used to state the
frame property C10). -/
inductive MoodApiOperation where
  | searchOp (client : Option Catalog) (mood : String) (limit : Int)
  | fallbackUrlOp (tracks : List TrackInfo) (mood : Option String)
  | detectOp (modelLoaded : Bool) (faces : List Face) (predict : Face → List ℚ)
  | createOp (sp : Option SpotifyUser) (tracks : List TrackInfo) (mood : String)
  | cleanupOp (sp : Option SpotifyUser) (playlists : List SpotifyPlaylist)
      (deleteFails : String → Bool)

/-- The `created_playlists` state after running one operation.  Search,
fallback-URL generation and detection do not take the cache at all
(their embeddings are cache-free, as the source functions never
reference `created_playlists`); playlist creation and cleanup thread
it explicitly. -/
def cacheAfter : MoodApiOperation → Cache → Cache
  | MoodApiOperation.searchOp _ _ _, c => c
  | MoodApiOperation.fallbackUrlOp _ _, c => c
  | MoodApiOperation.detectOp _ _ _, c => c
  | MoodApiOperation.createOp sp tracks mood, c =>
    (create_actual_spotify_playlist sp tracks mood c).2.1
  | MoodApiOperation.cleanupOp sp ps df, c => (cleanup_kaguya_playlists sp ps df c).cache

/-- Sample projected track with full metadata, for concrete witnesses. -/
def tInfo0 : TrackInfo :=
  { id := "t0", name := "Song", artist := "Artist", album := "Album",
    image_url := none, preview_url := none,
    spotify_url := "https://open.spotify.com/track/t0", duration_ms := 1000,
    popularity := 50 }

/-- Sample projected track with no usable name/artist metadata. -/
def tInfoBlank : TrackInfo :=
  { id := "t9", name := "", artist := "", album := "",
    image_url := none, preview_url := none, spotify_url := "",
    duration_ms := 0, popularity := 0 }

/-- Sample authenticated user whose playlist URLs are derived from the
playlist name. -/
def user0 : SpotifyUser :=
  { userId := "user0", playlistUrl := fun n => "https://open.spotify.com/playlist/" ++ n }

/-- Sample catalog returning two copies of one track and one of another,
regardless of query and limit. -/
def catalog0 : Catalog := fun _ _ => [some rawT0, some rawT0, none, some rawT1]

/-- Sample websocket environment whose decoding always fails. -/
def wsEnv0 : WsEnv :=
  { decode := fun _ => none, detectFaces := fun _ => [],
    predict := fun _ _ => [], modelLoaded := true, client := none }

/-- Sample prediction vector, constant over regions. -/
def predict0 : Face → List ℚ := fun _ => [3/10, 1/2, 1/10]

/-- Sample user playlists: two brand-prefixed (one with uppercase
brand), one unrelated. -/
def playlists0 : List SpotifyPlaylist :=
  [{ name := "Kaguya happy mood", id := "p1", url := "u1" },
   { name := "Other stuff", id := "p2", url := "u2" },
   { name := "kaguya sad mood", id := "p3", url := "u3" }]

/-- Sample deletion-failure predicate: unfollowing playlist `p1`
raises. -/
def deleteFails0 : String → Bool := fun i => i = "p1"

/-- Unfolding of the dedup-and-truncate loop against the spec-side
first-seen dedup: while fewer than `limit` tracks are kept, the loop
produces the projections of the first-seen-deduplicated remaining items,
truncated to the remaining budget. -/
theorem searchLoop_cons_some (limit : Int) (t : RawTrack) (rest : List (Option RawTrack))
    (seen : List String) (n : Nat) :
    searchLoop limit (some t :: rest) seen n
      = if t.id ∈ seen then searchLoop limit rest seen n
        else if ((n + 1 : Nat) : Int) ≥ limit then [projectTrack t]
        else projectTrack t :: searchLoop limit rest (t.id :: seen) (n + 1) := rfl

/-- Unfolding of the dedup-and-truncate loop against the spec-side
first-seen dedup: while fewer than `limit` tracks are kept, the loop
produces the projections of the first-seen-deduplicated remaining items,
truncated to the remaining budget. -/
theorem searchLoop_eq (limit : Int) (items : List (Option RawTrack)) :
    ∀ (seen : List String) (n : Nat), (n : Int) < limit →
      searchLoop limit items seen n
        = ((specFirstSeenDedup items.reduceOption seen).map projectTrack).take
            (limit - n).toNat := by
  induction items with
  | nil => intro seen n h; simp [searchLoop, specFirstSeenDedup]
  | cons o rest ih =>
    intro seen n h
    match o with
    | none =>
      simpa [searchLoop, List.reduceOption_cons_of_none] using ih seen n h
    | some t =>
      rw [List.reduceOption_cons_of_some, searchLoop_cons_some]
      by_cases hmem : t.id ∈ seen
      · rw [if_pos hmem, ih seen n h]
        simp [specFirstSeenDedup, hmem]
      · rw [if_neg hmem]
        by_cases hbreak : ((n + 1 : Nat) : Int) ≥ limit
        · rw [if_pos hbreak]
          have h1 : (limit - n).toNat = 1 := by
            push_cast at hbreak
            omega
          simp [specFirstSeenDedup, hmem, h1]
        · rw [if_neg hbreak]
          have hlt : ((n + 1 : Nat) : Int) < limit := by
            push_cast at hbreak ⊢
            omega
          rw [ih (t.id :: seen) (n + 1) hlt]
          have h2 : (limit - n).toNat = (limit - (n + 1 : Nat)).toNat + 1 := by
            push_cast
            omega
          simp [specFirstSeenDedup, hmem, h2]

/-- Tracks kept by the spec-side dedup have ids outside the seen set. -/
theorem specFirstSeenDedup_not_seen (l : List RawTrack) :
    ∀ (seen : List String), ∀ u ∈ specFirstSeenDedup l seen, u.id ∉ seen := by
  induction l with
  | nil => intro seen u hu; simp [specFirstSeenDedup] at hu
  | cons t ts ih =>
    intro seen u hu
    by_cases hmem : t.id ∈ seen
    · exact ih seen u (by simpa [specFirstSeenDedup, hmem] using hu)
    · rw [show specFirstSeenDedup (t :: ts) seen
          = t :: specFirstSeenDedup ts (t.id :: seen) by simp [specFirstSeenDedup, hmem]] at hu
      rcases List.mem_cons.1 hu with h | h
      · subst h; exact hmem
      · intro hc
        exact ih (t.id :: seen) u h (List.mem_cons_of_mem _ hc)

/-- The spec-side dedup keeps each track id at most once. -/
theorem specFirstSeenDedup_nodup (l : List RawTrack) :
    ∀ (seen : List String), ((specFirstSeenDedup l seen).map RawTrack.id).Nodup := by
  induction l with
  | nil => intro seen; simp [specFirstSeenDedup]
  | cons t ts ih =>
    intro seen
    by_cases hmem : t.id ∈ seen
    · simpa [specFirstSeenDedup, hmem] using ih seen
    · rw [show specFirstSeenDedup (t :: ts) seen
          = t :: specFirstSeenDedup ts (t.id :: seen) by simp [specFirstSeenDedup, hmem]]
      rw [List.map_cons, List.nodup_cons]
      refine ⟨?_, ih (t.id :: seen)⟩
      intro hc
      rcases List.mem_map.1 hc with ⟨u, hu, he⟩
      exact specFirstSeenDedup_not_seen ts (t.id :: seen) u hu (he ▸ List.mem_cons_self _ _)

/-- Projection preserves the track id. -/
theorem map_id_projectTrack (l : List RawTrack) :
    (l.map projectTrack).map TrackInfo.id = l.map RawTrack.id := by
  simp only [List.map_map]
  rfl

/-- C1 counterexample: with requested limit 0 and a nonempty catalog
response, the returned track list has length 1, so its length is not at
most the requested limit. -/
theorem search_dedup_cex :
    (search_spotify_by_mood (some catalog0) "Happy" 0).length = 1
    ∧ ¬ (((search_spotify_by_mood (some catalog0) "Happy" 0).length : Int) ≤ 0) := by
  constructor <;> decide

/-- C1 (amended: for a requested limit of at least 1): the Music
Recommender output is exactly the first-seen deduplication of the
catalog response (nulls skipped), projected and truncated to `limit`;
hence each track id occurs at most once, tracks appear in first-seen
input order, and the length is at most the requested limit. -/
theorem search_dedup_first_seen (catalog : Catalog) (mood : String) (limit : Int)
    (h : 1 ≤ limit) :
    search_spotify_by_mood (some catalog) mood limit
      = ((specFirstSeenDedup
            ((catalog (get_mood_search_query mood) (min (limit * 2) 50)).reduceOption)
            []).map projectTrack).take limit.toNat
    ∧ ((search_spotify_by_mood (some catalog) mood limit).map TrackInfo.id).Nodup
    ∧ ((search_spotify_by_mood (some catalog) mood limit).length : Int) ≤ limit := by
  have key := searchLoop_eq limit
    (catalog (get_mood_search_query mood) (min (limit * 2) 50)) [] 0 (by omega)
  have hmain : search_spotify_by_mood (some catalog) mood limit
      = ((specFirstSeenDedup
            ((catalog (get_mood_search_query mood) (min (limit * 2) 50)).reduceOption)
            []).map projectTrack).take limit.toNat := by
    rw [search_spotify_by_mood]
    simpa using key
  refine ⟨hmain, ?_, ?_⟩
  · rw [hmain, List.map_take, map_id_projectTrack]
    exact (List.take_sublist _ _).nodup (specFirstSeenDedup_nodup _ [])
  · rw [hmain]
    have hlen := List.length_take_le limit.toNat
      ((specFirstSeenDedup
          ((catalog (get_mood_search_query mood) (min (limit * 2) 50)).reduceOption)
          []).map projectTrack)
    omega

/-- Witness for the amended C1 theorem at a concrete catalog, mood and
limit. -/
theorem search_dedup_first_seen_witness :
    (1 : Int) ≤ 2
    ∧ (search_spotify_by_mood (some catalog0) "Happy" 2
        = ((specFirstSeenDedup
              ((catalog0 (get_mood_search_query "Happy") (min (2 * 2) 50)).reduceOption)
              []).map projectTrack).take (2 : Int).toNat
      ∧ ((search_spotify_by_mood (some catalog0) "Happy" 2).map TrackInfo.id).Nodup
      ∧ ((search_spotify_by_mood (some catalog0) "Happy" 2).length : Int) ≤ 2) :=
  ⟨by decide, search_dedup_first_seen catalog0 "Happy" 2 (by decide)⟩

/-- Dictionary lookup misses exactly the keys outside the stored key
list. -/
theorem dictLookup_eq_none_iff (c : Cache) (k : String) :
    dictLookup c k = none ↔ k ∉ c.map Prod.fst := by
  induction c with
  | nil => simp [dictLookup]
  | cons p rest ih =>
    by_cases hk : p.1 = k
    · simp [dictLookup, hk]
    · simp [dictLookup, hk, ih, Ne.symm hk]

/-- Storing a fresh key at the end of the dictionary makes its lookup
hit. -/
theorem dictLookup_append_self (c : Cache) (k u : String)
    (h : dictLookup c k = none) : dictLookup (c ++ [(k, u)]) k = some u := by
  induction c with
  | nil => simp [dictLookup]
  | cons p rest ih =>
    obtain ⟨a, b⟩ := p
    by_cases hk : a = k
    · rw [dictLookup, if_pos hk] at h
      exact absurd h (by simp)
    · rw [dictLookup, if_neg hk] at h
      rw [List.cons_append, dictLookup, if_neg hk]
      exact ih h

/-- C2: with a non-empty track list and an uncached mood, the first
authenticated request performs exactly one external creation call and
returns a URL; the second request for the same mood performs only the
cache membership test (no external call), returns the same URL, leaves
the cache unchanged, and the cache keys stay duplicate-free. -/
theorem playlist_creation_idempotent (user : SpotifyUser) (mood : String) (c0 : Cache)
    (hm : dictLookup c0 mood = none) (hk : (c0.map Prod.fst).Nodup)
    (t1 t2 : List TrackInfo) (h1 : t1 ≠ []) (h2 : t2 ≠ []) :
    creationCalls (create_actual_spotify_playlist (some user) t1 mood c0).2.2 = 1
    ∧ (create_actual_spotify_playlist (some user) t1 mood c0).1.isSome = true
    ∧ (create_actual_spotify_playlist (some user) t2 mood
        (create_actual_spotify_playlist (some user) t1 mood c0).2.1).2.2
        = [ApiEvent.cacheLookup mood]
    ∧ (create_actual_spotify_playlist (some user) t2 mood
        (create_actual_spotify_playlist (some user) t1 mood c0).2.1).1
        = (create_actual_spotify_playlist (some user) t1 mood c0).1
    ∧ (create_actual_spotify_playlist (some user) t2 mood
        (create_actual_spotify_playlist (some user) t1 mood c0).2.1).2.1
        = (create_actual_spotify_playlist (some user) t1 mood c0).2.1
    ∧ ((create_actual_spotify_playlist (some user) t1 mood c0).2.1.map Prod.fst).Nodup := by
  have e1 : create_actual_spotify_playlist (some user) t1 mood c0
      = (some (user.playlistUrl ("kaguya " ++ pyLower mood ++ " mood")),
         c0 ++ [(mood, user.playlistUrl ("kaguya " ++ pyLower mood ++ " mood"))],
         [ApiEvent.cacheLookup mood, ApiEvent.currentUser,
          ApiEvent.createPlaylist ("kaguya " ++ pyLower mood ++ " mood")]
           ++ (if trackUrisLoop (t1.take 50) [] = [] then []
               else [ApiEvent.addItems (trackUrisLoop (t1.take 50) []).length])
           ++ [ApiEvent.cacheInsert mood
                (user.playlistUrl ("kaguya " ++ pyLower mood ++ " mood"))]) := by
    simp [create_actual_spotify_playlist, h1, hm]
  have hc1 : dictLookup
      (c0 ++ [(mood, user.playlistUrl ("kaguya " ++ pyLower mood ++ " mood"))]) mood
      = some (user.playlistUrl ("kaguya " ++ pyLower mood ++ " mood")) :=
    dictLookup_append_self c0 mood _ hm
  have e2 : create_actual_spotify_playlist (some user) t2 mood
      (create_actual_spotify_playlist (some user) t1 mood c0).2.1
      = (some (user.playlistUrl ("kaguya " ++ pyLower mood ++ " mood")),
         c0 ++ [(mood, user.playlistUrl ("kaguya " ++ pyLower mood ++ " mood"))],
         [ApiEvent.cacheLookup mood]) := by
    rw [e1]
    simp [create_actual_spotify_playlist, h2, hc1]
  refine ⟨?_, ?_, ?_, ?_, ?_, ?_⟩
  · rw [e1]
    by_cases hu : trackUrisLoop (t1.take 50) [] = [] <;>
      simp [hu, creationCalls, List.filter_append]
  · rw [e1]
    rfl
  · rw [e2]
  · rw [e2, e1]
  · rw [e2, e1]
  · rw [e1]
    have hnotin : mood ∉ c0.map Prod.fst := (dictLookup_eq_none_iff c0 mood).1 hm
    simp [List.nodup_append, hk, hnotin]

/-- Witness for the C2 theorem at a concrete user, mood, empty cache and
singleton track lists. -/
theorem playlist_creation_idempotent_witness :
    dictLookup [] "Happy" = none
    ∧ (([] : Cache).map Prod.fst).Nodup
    ∧ ([tInfo0] : List TrackInfo) ≠ []
    ∧ (creationCalls (create_actual_spotify_playlist (some user0) [tInfo0] "Happy" []).2.2 = 1
      ∧ (create_actual_spotify_playlist (some user0) [tInfo0] "Happy" []).1.isSome = true
      ∧ (create_actual_spotify_playlist (some user0) [tInfo0] "Happy"
          (create_actual_spotify_playlist (some user0) [tInfo0] "Happy" []).2.1).2.2
          = [ApiEvent.cacheLookup "Happy"]
      ∧ (create_actual_spotify_playlist (some user0) [tInfo0] "Happy"
          (create_actual_spotify_playlist (some user0) [tInfo0] "Happy" []).2.1).1
          = (create_actual_spotify_playlist (some user0) [tInfo0] "Happy" []).1
      ∧ (create_actual_spotify_playlist (some user0) [tInfo0] "Happy"
          (create_actual_spotify_playlist (some user0) [tInfo0] "Happy" []).2.1).2.1
          = (create_actual_spotify_playlist (some user0) [tInfo0] "Happy" []).2.1
      ∧ ((create_actual_spotify_playlist (some user0) [tInfo0] "Happy" []).2.1.map
          Prod.fst).Nodup) :=
  ⟨rfl, by decide, by decide,
   playlist_creation_idempotent user0 "Happy" [] rfl (by decide) [tInfo0] [tInfo0]
     (by decide) (by decide)⟩

/-- C9: calling the authenticated creation operation with an empty track
list returns `None` immediately, with the cache untouched and an empty
effect trace: no cache membership test, no cache store, no external
call, whatever the authentication state and the cache contents. -/
theorem create_empty_tracks_noop (sp : Option SpotifyUser) (mood : String) (cache : Cache) :
    create_actual_spotify_playlist sp [] mood cache = (none, cache, []) := by
  simp [create_actual_spotify_playlist]

/-- C4 counterexample: unauthenticated playlist creation with a
non-empty track list and an uncached mood returns no URL at all (not a
fallback search URL), and its effect trace contains the cache membership
test, so the unauthenticated path does read the cache. -/
theorem unauth_no_fallback_cex :
    (create_actual_spotify_playlist none [tInfo0] "Happy" []).1 = none
    ∧ ApiEvent.cacheLookup "Happy"
        ∈ (create_actual_spotify_playlist none [tInfo0] "Happy" []).2.2 := by
  constructor <;> decide

/-- C4 (amended): without an authenticated client and with a non-empty
track list, `create_actual_spotify_playlist` returns the cached URL for
the mood if one is present and otherwise no URL; it never mutates the
cache, and its only effect is the cache membership test.  The separate
fallback generator `create_spotify_playlist_url` — which the playlist
endpoints do not invoke on this path — is cache-free by construction
and, when some track id and some "name artist" string among the first 5
tracks are usable and the mood is given, returns the percent-encoded
mood-prefixed search URL over those strings. -/
theorem unauth_create_path (tracks : List TrackInfo) (mood : String) (cache : Cache)
    (ht : tracks ≠ []) :
    (create_actual_spotify_playlist none tracks mood cache).2.1 = cache
    ∧ (create_actual_spotify_playlist none tracks mood cache).1 = dictLookup cache mood
    ∧ (create_actual_spotify_playlist none tracks mood cache).2.2
        = [ApiEvent.cacheLookup mood]
    ∧ (∀ (ts : List TrackInfo) (m : String), ts ≠ [] → m ≠ "" →
        truthy_track_ids ts ≠ [] → five_track_names ts ≠ [] →
        create_spotify_playlist_url ts (some m)
          = some ("https://open.spotify.com/search/"
              ++ urllib_parse_quote
                  (m ++ " " ++ String.intercalate " " (five_track_names ts)))) := by
  refine ⟨?_, ?_, ?_, ?_⟩
  · cases hd : dictLookup cache mood <;> simp [create_actual_spotify_playlist, ht, hd]
  · cases hd : dictLookup cache mood <;> simp [create_actual_spotify_playlist, ht, hd]
  · cases hd : dictLookup cache mood <;> simp [create_actual_spotify_playlist, ht, hd]
  · intro ts m hts hm hids hnames
    rw [create_spotify_playlist_url, if_neg hts]
    simp only [if_pos (And.intro hids hnames)]
    simp [moodTruthy, hm]

/-- Witness for the amended C4 theorem at a concrete track list, mood
and non-empty cache. -/
theorem unauth_create_path_witness :
    ([tInfo0] : List TrackInfo) ≠ []
    ∧ ((create_actual_spotify_playlist none [tInfo0] "Sad" [("Sad", "u")]).2.1
        = [("Sad", "u")]
      ∧ (create_actual_spotify_playlist none [tInfo0] "Sad" [("Sad", "u")]).1
        = dictLookup [("Sad", "u")] "Sad"
      ∧ (create_actual_spotify_playlist none [tInfo0] "Sad" [("Sad", "u")]).2.2
        = [ApiEvent.cacheLookup "Sad"]
      ∧ create_spotify_playlist_url [tInfo0] (some "Sad")
        = some ("https://open.spotify.com/search/"
            ++ urllib_parse_quote
                ("Sad" ++ " " ++ String.intercalate " " (five_track_names [tInfo0])))) := by
  have h := unauth_create_path [tInfo0] "Sad" [("Sad", "u")] (by decide)
  exact ⟨by decide, h.1, h.2.1, h.2.2.1,
    h.2.2.2 [tInfo0] "Sad" (by decide) (by decide) (by decide) (by decide)⟩

/-- C3 counterexample: for the known mood "Happy" and an empty track
list, the fallback-URL generator returns no URL at all rather than a
mood-only search URL. -/
theorem fallback_empty_tracks_cex :
    create_spotify_playlist_url [] (some "Happy") = none := by
  decide

/-- C3 (amended): an empty track list makes `create_spotify_playlist_url`
return no URL; the mood-only search URL, containing the lowercased mood
token, is produced instead when the track list is non-empty but no track
offers both a name and an artist. -/
theorem fallback_mood_only (mood : String) (hm : mood ∈ MOOD_LABELS)
    (tracks : List TrackInfo) (hne : tracks ≠ [])
    (hblank : ∀ t ∈ tracks, t.name = "" ∨ t.artist = "") :
    create_spotify_playlist_url [] (some mood) = none
    ∧ create_spotify_playlist_url tracks (some mood)
        = some ("https://open.spotify.com/search/" ++ pyLower mood ++ "%20music")
    ∧ (∃ pre post, ("https://open.spotify.com/search/" ++ pyLower mood ++ "%20music")
        = pre ++ pyLower mood ++ post) := by
  have hmne : ¬(mood = "") := by
    fin_cases hm <;> decide
  have hfn : five_track_names tracks = [] := by
    rw [five_track_names, List.filterMap_eq_nil_iff]
    intro t htk
    rcases hblank t (List.take_subset 5 tracks htk) with h | h <;> simp [h]
  refine ⟨rfl, ?_, "https://open.spotify.com/search/", "%20music", rfl⟩
  rw [create_spotify_playlist_url, if_neg hne]
  simp [hfn, moodTruthy, hmne]

/-- Witness for the amended C3 theorem at a concrete mood and a
metadata-free track list. -/
theorem fallback_mood_only_witness :
    "Happy" ∈ MOOD_LABELS
    ∧ ([tInfoBlank] : List TrackInfo) ≠ []
    ∧ (create_spotify_playlist_url [] (some "Happy") = none
      ∧ create_spotify_playlist_url [tInfoBlank] (some "Happy")
          = some ("https://open.spotify.com/search/" ++ pyLower "Happy" ++ "%20music")
      ∧ (∃ pre post, ("https://open.spotify.com/search/" ++ pyLower "Happy" ++ "%20music")
          = pre ++ pyLower "Happy" ++ post)) :=
  ⟨by decide, by decide,
   fallback_mood_only "Happy" (by decide) [tInfoBlank] (by decide) (by decide)⟩

/-- C5 counterexample: with the catalog client uninitialized, a mood
outside the enumeration is answered with 503, not 400 (the 503 guard
runs before mood validation). -/
theorem playlist_endpoint_cex :
    "Bogus" ∉ MOOD_LABELS
    ∧ (get_playlist_by_mood none none "Bogus" 20 []).status = 503
    ∧ ¬ (get_playlist_by_mood none none "Bogus" 20 []).status = 400 := by
  refine ⟨by decide, rfl, by decide⟩

/-- C5 (amended): when the catalog client is initialized, a mood in the
enumeration is answered with 200 and a non-empty track list or with 404
(never 400), and a mood outside the enumeration with 400; when the
catalog client is not initialized, every mood is answered with 503. -/
theorem playlist_endpoint_status (catalog : Catalog) (sp : Option SpotifyUser)
    (mood : String) (limit : Int) (cache : Cache) :
    (mood ∈ MOOD_LABELS →
      ((get_playlist_by_mood (some catalog) sp mood limit cache).status = 200
        ∧ (get_playlist_by_mood (some catalog) sp mood limit cache).tracks ≠ [])
      ∨ (get_playlist_by_mood (some catalog) sp mood limit cache).status = 404)
    ∧ (mood ∉ MOOD_LABELS →
        (get_playlist_by_mood (some catalog) sp mood limit cache).status = 400)
    ∧ (get_playlist_by_mood none sp mood limit cache).status = 503 := by
  refine ⟨?_, ?_, rfl⟩
  · intro hm
    by_cases hts : search_spotify_by_mood (some catalog) mood limit = []
    · right
      simp [get_playlist_by_mood, hm, hts]
    · left
      constructor <;> simp [get_playlist_by_mood, hm, hts]
  · intro hm
    simp [get_playlist_by_mood, hm]

/-- Witness for the amended C5 theorem: a concrete valid mood against a
concrete non-empty catalog, and a concrete invalid mood. -/
theorem playlist_endpoint_status_witness :
    ("Happy" ∈ MOOD_LABELS
      ∧ (((get_playlist_by_mood (some catalog0) none "Happy" 20 []).status = 200
          ∧ (get_playlist_by_mood (some catalog0) none "Happy" 20 []).tracks ≠ [])
        ∨ (get_playlist_by_mood (some catalog0) none "Happy" 20 []).status = 404))
    ∧ ("Bored" ∉ MOOD_LABELS
      ∧ (get_playlist_by_mood (some catalog0) none "Bored" 20 []).status = 400) :=
  ⟨⟨by decide, (playlist_endpoint_status catalog0 none "Happy" 20 []).1 (by decide)⟩,
   ⟨by decide, (playlist_endpoint_status catalog0 none "Bored" 20 []).2.1 (by decide)⟩⟩

/-- C6: when at least one user playlist carries the brand prefix, the
cleanup operation reports exactly the matching playlists whose deletion
succeeded (all matching ones when no deletion fails — a failure is
skipped without aborting the rest), the reported count agrees, every
reported playlist matches the brand filter, and the in-memory cache is
empty afterward. -/
theorem cleanup_reports_matching (user : SpotifyUser) (playlists : List SpotifyPlaylist)
    (deleteFails : String → Bool) (cache : Cache)
    (hex : ∃ p ∈ playlists, isKaguyaPlaylist p = true) :
    (cleanup_kaguya_playlists (some user) playlists deleteFails cache).cache = []
    ∧ (cleanup_kaguya_playlists (some user) playlists deleteFails cache).deleted
        = (playlists.filter isKaguyaPlaylist).filter (fun p => !(deleteFails p.id))
    ∧ (cleanup_kaguya_playlists (some user) playlists deleteFails cache).deleted_count
        = ((playlists.filter isKaguyaPlaylist).filter (fun p => !(deleteFails p.id))).length
    ∧ (∀ p ∈ (cleanup_kaguya_playlists (some user) playlists deleteFails cache).deleted,
        isKaguyaPlaylist p = true)
    ∧ ((∀ p ∈ playlists, deleteFails p.id = false) →
        (cleanup_kaguya_playlists (some user) playlists deleteFails cache).deleted
          = playlists.filter isKaguyaPlaylist) := by
  have hkn : ¬ (playlists.filter isKaguyaPlaylist = []) := by
    obtain ⟨p, hp, hk⟩ := hex
    intro hc
    have hmem := List.mem_filter.2 ⟨hp, hk⟩
    rw [hc] at hmem
    exact absurd hmem (List.not_mem_nil p)
  refine ⟨?_, ?_, ?_, ?_, ?_⟩
  · simp [cleanup_kaguya_playlists, hkn]
  · simp [cleanup_kaguya_playlists, hkn]
  · simp [cleanup_kaguya_playlists, hkn]
  · intro p hp
    rw [show (cleanup_kaguya_playlists (some user) playlists deleteFails cache).deleted
        = (playlists.filter isKaguyaPlaylist).filter (fun p => !(deleteFails p.id)) by
      simp [cleanup_kaguya_playlists, hkn]] at hp
    exact (List.mem_filter.1 (List.mem_of_mem_filter hp)).2
  · intro hall
    rw [show (cleanup_kaguya_playlists (some user) playlists deleteFails cache).deleted
        = (playlists.filter isKaguyaPlaylist).filter (fun p => !(deleteFails p.id)) by
      simp [cleanup_kaguya_playlists, hkn]]
    apply List.filter_eq_self.2
    intro p hp
    rw [hall p (List.mem_of_mem_filter hp)]
    rfl

/-- Witness for the C6 theorem: three concrete playlists of which two
match the brand prefix (one case-insensitively) and one of the matching
deletions fails; exactly the other matching playlist is reported and the
cache empties. -/
theorem cleanup_reports_matching_witness :
    (∃ p ∈ playlists0, isKaguyaPlaylist p = true)
    ∧ ((cleanup_kaguya_playlists (some user0) playlists0 deleteFails0
          [("Happy", "u")]).cache = []
      ∧ (cleanup_kaguya_playlists (some user0) playlists0 deleteFails0
          [("Happy", "u")]).deleted
          = (playlists0.filter isKaguyaPlaylist).filter (fun p => !(deleteFails0 p.id))
      ∧ (cleanup_kaguya_playlists (some user0) playlists0 deleteFails0
          [("Happy", "u")]).deleted_count
          = ((playlists0.filter isKaguyaPlaylist).filter
              (fun p => !(deleteFails0 p.id))).length
      ∧ (∀ p ∈ (cleanup_kaguya_playlists (some user0) playlists0 deleteFails0
            [("Happy", "u")]).deleted, isKaguyaPlaylist p = true)
      ∧ ((∀ p ∈ playlists0, deleteFails0 p.id = false) →
          (cleanup_kaguya_playlists (some user0) playlists0 deleteFails0
            [("Happy", "u")]).deleted = playlists0.filter isKaguyaPlaylist)) :=
  ⟨by decide,
   cleanup_reports_matching user0 playlists0 deleteFails0 [("Happy", "u")] (by decide)⟩

/-- Starting region never shrinks under the fold: the selected face has
area at least that of the starting candidate. -/
theorem le_largestFace (fs : List Face) :
    ∀ b : Face, faceArea b ≤ faceArea (largestFace b fs) := by
  induction fs with
  | nil => intro b; simp [largestFace]
  | cons g rest ih =>
    intro b
    rw [largestFace]
    by_cases hlt : faceArea b < faceArea g
    · rw [if_pos hlt]
      exact le_of_lt (lt_of_lt_of_le hlt (ih g))
    · rw [if_neg hlt]
      exact ih b

/-- Position of the selected face: the candidate list splits around the
selected region so that every earlier region has strictly smaller area
and every later region has area at most the selected one — the maximum
with ties broken in favour of the earliest region. -/
theorem largestFace_split (fs : List Face) :
    ∀ b : Face, ∃ l1 l2, b :: fs = l1 ++ largestFace b fs :: l2
      ∧ (∀ x ∈ l1, faceArea x < faceArea (largestFace b fs))
      ∧ (∀ x ∈ l2, faceArea x ≤ faceArea (largestFace b fs)) := by
  induction fs with
  | nil => intro b; exact ⟨[], [], rfl, by simp, by simp⟩
  | cons g rest ih =>
    intro b
    rw [largestFace]
    by_cases hlt : faceArea b < faceArea g
    · rw [if_pos hlt]
      obtain ⟨l1, l2, heq, hl1, hl2⟩ := ih g
      refine ⟨b :: l1, l2, ?_, ?_, hl2⟩
      · rw [List.cons_append, ← heq]
      · intro x hx
        rcases List.mem_cons.1 hx with rfl | hx
        · exact lt_of_lt_of_le hlt (le_largestFace rest g)
        · exact hl1 x hx
    · rw [if_neg hlt]
      obtain ⟨l1, l2, heq, hl1, hl2⟩ := ih b
      cases l1 with
      | nil =>
        rw [List.nil_append] at heq
        injection heq with hb hrest
        refine ⟨[], g :: l2, ?_, by simp, ?_⟩
        · rw [List.nil_append, ← hb, hrest]
        · intro x hx
          rcases List.mem_cons.1 hx with rfl | hx
          · rw [← hb]
            exact not_lt.1 hlt
          · exact hl2 x hx
      | cons a l1' =>
        rw [List.cons_append] at heq
        injection heq with hab hrest
        have hbl1 : faceArea b < faceArea (largestFace b rest) :=
          hl1 b (hab ▸ List.mem_cons_self a l1')
        refine ⟨b :: g :: l1', l2, ?_, ?_, hl2⟩
        · rw [show (b :: g :: l1') ++ largestFace b rest :: l2
              = b :: g :: (l1' ++ largestFace b rest :: l2) from rfl, ← hrest]
        · intro x hx
          rcases List.mem_cons.1 hx with rfl | hx
          · exact hbl1
          rcases List.mem_cons.1 hx with rfl | hx
          · exact lt_of_le_of_lt (not_lt.1 hlt) hbl1
          · exact hl1 x (hab ▸ List.mem_cons_of_mem a hx)

/-- C7: an empty detection list produces the "no face" outcome
`(none, 0.0)` rather than an error; a non-empty detection list is
classified on the selected region, which splits the list so that all
earlier regions have strictly smaller area and all later regions have
area at most its own (maximum area, ties to the detector's first
match). -/
theorem face_selection (predict : Face → List ℚ) (f : Face) (fs : List Face) :
    detect_mood_from_image true [] predict = (none, 0)
    ∧ (∃ l1 l2, f :: fs = l1 ++ largestFace f fs :: l2
        ∧ (∀ x ∈ l1, faceArea x < faceArea (largestFace f fs))
        ∧ (∀ x ∈ l2, faceArea x ≤ faceArea (largestFace f fs)))
    ∧ detect_mood_from_image true (f :: fs) predict
        = classifyFace (predict (largestFace f fs)) :=
  ⟨rfl, largestFace_split fs f, rfl⟩

/-- Witness for the C7 theorem at two concrete regions of equal area
(the earlier one is selected) and a concrete prediction vector. -/
theorem face_selection_witness :
    detect_mood_from_image true [] predict0 = (none, 0)
    ∧ detect_mood_from_image true [(0, 0, 2, 3), (0, 0, 3, 2)] predict0
        = classifyFace (predict0 (largestFace (0, 0, 2, 3) [(0, 0, 3, 2)])) :=
  ⟨(face_selection predict0 (0, 0, 2, 3) [(0, 0, 3, 2)]).1,
   (face_selection predict0 (0, 0, 2, 3) [(0, 0, 3, 2)]).2.2⟩

/-- Receive loop as a map: every received frame is answered. -/
theorem websocket_video_mood_eq_map (env : WsEnv) (msgs : List WsMessage) :
    websocket_video_mood env msgs = msgs.map (handleFrame env) := by
  induction msgs with
  | nil => rfl
  | cons m rest ih => rw [websocket_video_mood, ih, List.map_cons]

/-- C8: the streaming loop sends exactly one reply per inbound message
(no message terminates the connection), each message is processed
independently of the others, and a message lacking the image field is
answered with the inline error reply while later messages are still
processed. -/
theorem ws_malformed_inline_error (env : WsEnv) (msgs : List WsMessage) :
    (websocket_video_mood env msgs).length = msgs.length
    ∧ (∀ (i : Nat) (m : WsMessage), msgs[i]? = some m →
        (websocket_video_mood env msgs)[i]? = some (handleFrame env m))
    ∧ (∀ (i : Nat) (m : WsMessage), msgs[i]? = some m → m.image = none →
        (websocket_video_mood env msgs)[i]?
          = some (WsReply.errorReply "No image data provided")) := by
  rw [websocket_video_mood_eq_map]
  refine ⟨by simp, ?_, ?_⟩
  · intro i m hm
    rw [List.getElem?_map, hm]
    rfl
  · intro i m hm himg
    rw [List.getElem?_map, hm]
    simp [handleFrame, himg]

/-- Witness for the C8 theorem: a two-frame stream whose first frame
lacks the image field; the loop answers it with the inline error and
still answers the second frame. -/
theorem ws_malformed_inline_error_witness :
    ([⟨none, some 1, false⟩, ⟨some "x", none, false⟩] : List WsMessage)[0]?
      = some ⟨none, some 1, false⟩
    ∧ (websocket_video_mood wsEnv0
        [⟨none, some 1, false⟩, ⟨some "x", none, false⟩]).length = 2
    ∧ (websocket_video_mood wsEnv0 [⟨none, some 1, false⟩, ⟨some "x", none, false⟩])[0]?
      = some (WsReply.errorReply "No image data provided")
    ∧ (websocket_video_mood wsEnv0 [⟨none, some 1, false⟩, ⟨some "x", none, false⟩])[1]?
      = some (handleFrame wsEnv0 ⟨some "x", none, false⟩) := by
  have h := ws_malformed_inline_error wsEnv0
    [⟨none, some 1, false⟩, ⟨some "x", none, false⟩]
  exact ⟨rfl, h.1, h.2.2 0 ⟨none, some 1, false⟩ rfl rfl,
    h.2.1 1 ⟨some "x", none, false⟩ rfl⟩

/-- C10: one operation of the service either leaves the
`created_playlists` cache unchanged, or is a playlist creation that
appends exactly one mood-to-URL entry for a previously uncached mood, or
is a cleanup that clears the whole cache; search, fallback-URL
generation and detection (whose embeddings do not even receive the
cache) always fall in the first case. -/
theorem cache_mutation_sites (op : MoodApiOperation) (c : Cache) :
    cacheAfter op c = c
    ∨ (∃ sp tracks mood url, op = MoodApiOperation.createOp sp tracks mood
        ∧ dictLookup c mood = none ∧ cacheAfter op c = c ++ [(mood, url)])
    ∨ (∃ sp ps df, op = MoodApiOperation.cleanupOp sp ps df ∧ cacheAfter op c = []) := by
  cases op with
  | searchOp client mood limit => exact Or.inl rfl
  | fallbackUrlOp tracks mood => exact Or.inl rfl
  | detectOp ml faces predict => exact Or.inl rfl
  | createOp sp tracks mood =>
    by_cases ht : tracks = []
    · exact Or.inl (by simp [cacheAfter, create_actual_spotify_playlist, ht])
    · cases hd : dictLookup c mood with
      | some url =>
        exact Or.inl (by simp [cacheAfter, create_actual_spotify_playlist, ht, hd])
      | none =>
        cases sp with
        | none =>
          exact Or.inl (by simp [cacheAfter, create_actual_spotify_playlist, ht, hd])
        | some user =>
          refine Or.inr (Or.inl ⟨some user, tracks, mood,
            user.playlistUrl ("kaguya " ++ pyLower mood ++ " mood"), rfl, hd, ?_⟩)
          simp [cacheAfter, create_actual_spotify_playlist, ht, hd]
  | cleanupOp sp ps df =>
    cases sp with
    | none => exact Or.inl (by simp [cacheAfter, cleanup_kaguya_playlists])
    | some user =>
      by_cases hk : ps.filter isKaguyaPlaylist = []
      · exact Or.inl (by simp [cacheAfter, cleanup_kaguya_playlists, hk])
      · refine Or.inr (Or.inr ⟨some user, ps, df, rfl, ?_⟩)
        simp [cacheAfter, cleanup_kaguya_playlists, hk]

end Kaguya
